import Mathlib

/-!
Verification development for the podscrybe AI-generation steps.

The repository generates four marketing artifacts from a podcast transcript
(summary, social posts, titles, YouTube timestamps).  Each generation step
calls a text-completion endpoint, parses the reply as JSON, validates it,
issues at most one repair call on failure, and falls back to a placeholder
value.  This file embeds those four steps
(`src/inngest/steps/ai-generation/summary.ts`,
`src/inngest/steps/ai-generation/social-posts.ts`,
`src/inngest/steps/ai-generation/youtube-timestamps.ts`, and the titles step)
shallowly in Lean and proves properties about them.

Modelling conventions:
* The completion endpoint is an oracle mapping the call number (0 = first
  attempt, 1 = repair) to an outcome: a transport-level failure (the awaited
  call rejects / throws), or a response whose `content` field is absent/null,
  or a raw text abstracted by its JSON-parse outcome (`none` = the text is not
  valid JSON, `some j` = it parses to the JSON value `j`).
* JavaScript strings are modelled by `String`; `s.substring(0, n)` is
  `jsSubstring s n` (the first `n` characters) and `s.length` is `jsLength s`.
* `console.log` / `console.warn` / `console.error` calls are modelled as
  no-ops; their argument expressions are not modelled.
* The zod schemas (`@/schemas/ai-outputs`) and `formatTimestamp`
  (`@/lib/format`) are imported by the steps but their files are not part of
  the provided sources, so they are modelled from the spec (see the doc
  comments on `summarySchemaParse`, `socialPostsSchemaParse`,
  `titlesSchemaParse`, `formatTimestamp`).
-/

namespace Podscrybe

/-- JSON values: the image of a successful `JSON.parse`. -/
inductive Json where
  | null
  | bool (b : Bool)
  | num (n : Int)
  | str (s : String)
  | arr (elems : List Json)
  | obj (fields : List (String × Json))

/-- A string-typed JSON value, or `none` (used by the schema decoders for
string-array fields). -/
def Json.asString : Json → Option String
  | .str s => some s
  | _ => none

/-- JavaScript truthiness of a JSON value (arrays and objects are truthy,
`null` / `false` / `0` / the empty string are falsy). -/
def Json.truthy : Json → Bool
  | .null => false
  | .bool b => b
  | .num n => n != 0
  | .str s => s != ""
  | .arr _ => true
  | .obj _ => true

/-- First field with the given key, or `none` (JS property lookup on the
parsed object). -/
def lookupField : List (String × Json) → String → Option Json
  | [], _ => none
  | (k, v) :: rest, key => if k = key then some v else lookupField rest key

/-- JS `s.substring(0, n)`: the first `n` characters of `s` (the whole string
when it is shorter). -/
def jsSubstring (s : String) (n : Nat) : String := (s.toList.take n).asString

/-- JS `s.length`. -/
def jsLength (s : String) : Nat := s.toList.length

/-- A chapter produced by the speech service:
`{ start: integer-milliseconds, headline, summary, gist }` (spec section 6). -/
structure Chapter where
  start : Nat
  headline : String
  summary : String
  gist : String
deriving DecidableEq

/-- The input transcript `{ text, chapters }`; an absent chapters field is
modelled as the empty list (the steps use `transcript.chapters || []`). -/
structure Transcript where
  text : String
  chapters : List Chapter
deriving DecidableEq

/-- The JSON-parse outcome of one raw response text: `none` when the text is
not valid JSON. -/
abbrev RawParse := Option Json

/-- Outcome of one completion call: a transport-level failure (the call
throws), or a response whose `content` is absent/null (`none`) or a raw text
abstracted by its parse outcome. -/
inductive CompResult where
  | err
  | ok (content : Option RawParse)

/-- The completion endpoint for one generation request: call number
(0 = first attempt, 1 = repair) to outcome. -/
abbrev Oracle := Nat → CompResult

/-- Decode the content of an `ok` response the way the three JSON-object steps
do: `content ?? ""` followed by `JSON.parse` and a schema `parse`, collapsing
any throw to `none` (the surrounding `catch`). -/
def attemptDecode {α : Type} (dec : Json → Option α) (content : Option RawParse) : Option α :=
  (content.getD none).bind dec

/-- The summary artifact `{ full, bullets, insights, tldr }`. -/
structure Summary where
  full : String
  bullets : List String
  insights : List String
  tldr : String
deriving DecidableEq

/-- Modelled from the spec: `summarySchema` from `@/schemas/ai-outputs` is not
in the provided sources.  Spec section 6 declares the Summary output shape
`\x7b full: string, bullets: string[], insights: string[], tldr: string \x7d`
with no further constraints, so the decoder requires exactly those keys and
types (zod strips unknown keys). -/
def summarySchemaParse (j : Json) : Option Summary := do
  let .obj fs := j | none
  let .str full := (← lookupField fs "full") | none
  let .arr bs := (← lookupField fs "bullets") | none
  let bullets ← bs.mapM Json.asString
  let .arr is := (← lookupField fs "insights") | none
  let insights ← is.mapM Json.asString
  let .str tldr := (← lookupField fs "tldr") | none
  some ⟨full, bullets, insights, tldr⟩

/-- The transport-failure fallback of `generateSummary` (outer `catch`). -/
def summaryTransportFallback : Summary :=
  { full := "⚠️ Error generating summary with GROQ. Please check logs or try again."
    bullets := ["Summary generation failed - see full transcript"]
    insights := ["Error occurred during AI generation"]
    tldr := "Summary generation failed" }

/-- The parse/validation-failure fallback of `generateSummary` (inner `catch`):
built from the raw transcript. -/
def summaryValidationFallback (t : Transcript) : Summary :=
  { full := jsSubstring t.text 500
    bullets := ["Full transcript available"]
    insights := ["See transcript"]
    tldr := jsSubstring t.text 200 }

/-- `generateSummary` (src/inngest/steps/ai-generation/summary.ts): first
completion call; on parse/validation failure one repair call; on repair
failure the transcript-derived fallback; a transport failure of the first
call reaches the outer `catch` (static fallback), one of the repair call the
inner `catch` (transcript-derived fallback).  Returns the result paired with
the number of completion calls issued. -/
def generateSummary (oracle : Oracle) (t : Transcript) : Summary × Nat :=
  match oracle 0 with
  | .err => (summaryTransportFallback, 1)
  | .ok content =>
    match attemptDecode summarySchemaParse content with
    | some s => (s, 1)
    | none =>
      match oracle 1 with
      | .err => (summaryValidationFallback t, 2)
      | .ok rc =>
        match attemptDecode summarySchemaParse rc with
        | some s => (s, 2)
        | none => (summaryValidationFallback t, 2)

/-- The social-posts artifact: six platform-specific strings. -/
structure SocialPosts where
  twitter : String
  linkedin : String
  instagram : String
  tiktok : String
  youtube : String
  facebook : String
deriving DecidableEq

/-- Modelled from the spec: `socialPostsSchema` from `@/schemas/ai-outputs` is
not in the provided sources.  Spec section 6 declares six required string
keys; per spec section 4.3 the 280-character twitter cap is "enforced
post-hoc" by truncation (the step's safety check after validation), not by
the schema, so the decoder checks key presence and string types only. -/
def socialPostsSchemaParse (j : Json) : Option SocialPosts := do
  let .obj fs := j | none
  let .str twitter := (← lookupField fs "twitter") | none
  let .str linkedin := (← lookupField fs "linkedin") | none
  let .str instagram := (← lookupField fs "instagram") | none
  let .str tiktok := (← lookupField fs "tiktok") | none
  let .str youtube := (← lookupField fs "youtube") | none
  let .str facebook := (← lookupField fs "facebook") | none
  some ⟨twitter, linkedin, instagram, tiktok, youtube, facebook⟩

/-- The transport-failure fallback of `generateSocialPosts` (outer `catch`).
The literal text reproduces the bytes of the source file. -/
def socialTransportFallback : SocialPosts :=
  { twitter := "‚ö†Ô∏è Error generating social post. Check logs for details."
    linkedin := "‚ö†Ô∏è Error generating social post. Check logs for details."
    instagram := "‚ö†Ô∏è Error generating social post. Check logs for details."
    tiktok := "‚ö†Ô∏è Error generating social post. Check logs for details."
    youtube := "‚ö†Ô∏è Error generating social post. Check logs for details."
    facebook := "‚ö†Ô∏è Error generating social post. Check logs for details." }

/-- The parse/validation-failure fallback of `generateSocialPosts`
(inner `catch`). -/
def socialValidationFallback : SocialPosts :=
  { twitter := "New podcast episode!"
    linkedin := "Check out our latest podcast."
    instagram := "New episode out now! üéôÔ∏è"
    tiktok := "New podcast!"
    youtube := "Watch our latest episode."
    facebook := "New podcast available!" }

/-- The safety check at the end of the `try` block of `generateSocialPosts`:
a twitter field longer than 280 characters is replaced by its first 277
characters followed by `...`. -/
def truncateTwitter (sp : SocialPosts) : SocialPosts :=
  if 280 < jsLength sp.twitter then
    { sp with twitter := jsSubstring sp.twitter 277 ++ "..." }
  else sp

/-- `generateSocialPosts` (src/inngest/steps/ai-generation/social-posts.ts):
same try / parse / repair-once / fallback structure as `generateSummary`,
with the twitter truncation applied to every value produced inside the `try`
block (parsed, repaired, or validation fallback) but not to the transport
fallback of the outer `catch`. -/
def generateSocialPosts (oracle : Oracle) (t : Transcript) : SocialPosts × Nat :=
  match oracle 0 with
  | .err => (socialTransportFallback, 1)
  | .ok content =>
    match attemptDecode socialPostsSchemaParse content with
    | some sp => (truncateTwitter sp, 1)
    | none =>
      match oracle 1 with
      | .err => (truncateTwitter socialValidationFallback, 2)
      | .ok rc =>
        match attemptDecode socialPostsSchemaParse rc with
        | some sp => (truncateTwitter sp, 2)
        | none => (truncateTwitter socialValidationFallback, 2)

/-- The titles artifact
`\x7b youtubeShort, youtubeLong, podcastTitles, seoKeywords \x7d`. -/
structure Titles where
  youtubeShort : List String
  youtubeLong : List String
  podcastTitles : List String
  seoKeywords : List String
deriving DecidableEq

/-- Modelled from the spec: `titlesSchema` from `@/schemas/ai-outputs` is not
in the provided sources.  Spec section 6 declares
`youtubeShort: string[3], youtubeLong: string[3], podcastTitles: string[3],
seoKeywords: string[5..10]`, and the titles step's doc comment confirms the
exact-3 lengths and the 5-10 range, so the decoder enforces exactly that. -/
def titlesSchemaParse (j : Json) : Option Titles := do
  let .obj fs := j | none
  let .arr ys := (← lookupField fs "youtubeShort") | none
  let youtubeShort ← ys.mapM Json.asString
  let .arr yl := (← lookupField fs "youtubeLong") | none
  let youtubeLong ← yl.mapM Json.asString
  let .arr ps := (← lookupField fs "podcastTitles") | none
  let podcastTitles ← ps.mapM Json.asString
  let .arr ks := (← lookupField fs "seoKeywords") | none
  let seoKeywords ← ks.mapM Json.asString
  if youtubeShort.length = 3 ∧ youtubeLong.length = 3 ∧ podcastTitles.length = 3
      ∧ 5 ≤ seoKeywords.length ∧ seoKeywords.length ≤ 10 then
    some ⟨youtubeShort, youtubeLong, podcastTitles, seoKeywords⟩
  else none

/-- The transport-failure fallback of `generateTitles` (outer `catch`): note
the single-element arrays. -/
def titlesTransportFallback : Titles :=
  { youtubeShort := ["⚠️ Title generation failed"]
    youtubeLong := ["⚠️ Title generation failed - check logs"]
    podcastTitles := ["⚠️ Title generation failed"]
    seoKeywords := ["error"] }

/-- The parse/validation-failure fallback of `generateTitles`
(inner `catch`). -/
def titlesValidationFallback : Titles :=
  { youtubeShort := ["Podcast Episode", "New Podcast Episode", "Episode Highlights"]
    youtubeLong := ["Podcast Episode - Full Discussion", "Deep Dive: Episode Topic | Insights", "Episode Title: Expert Conversation"]
    podcastTitles := ["New Episode", "Episode Title", "Latest Episode"]
    seoKeywords := ["podcast", "episode", "discussion", "interview", "insights"] }

/-- `generateTitles` (src/unnamed/part_003): same try / parse / repair-once /
fallback structure as `generateSummary`. -/
def generateTitles (oracle : Oracle) (t : Transcript) : Titles × Nat :=
  match oracle 0 with
  | .err => (titlesTransportFallback, 1)
  | .ok content =>
    match attemptDecode titlesSchemaParse content with
    | some ts => (ts, 1)
    | none =>
      match oracle 1 with
      | .err => (titlesValidationFallback, 2)
      | .ok rc =>
        match attemptDecode titlesSchemaParse rc with
        | some ts => (ts, 2)
        | none => (titlesValidationFallback, 2)

/-- `buildSummaryPrompt` (summary.ts, lines 42-81): the transcript text is cut
to its first 3000 characters; when chapters exist, every chapter contributes a
numbered "headline - summary" line (there is no cap on the number of chapter
lines in this builder). -/
def buildSummaryPrompt (t : Transcript) : String :=
  "Analyze this podcast transcript in detail and create a comprehensive summary package.\n\n"
  ++ "TRANSCRIPT (first 3000 chars):\n"
  ++ jsSubstring t.text 3000 ++ "...\n\n"
  ++ (if 0 < t.chapters.length then
        "\nAUTO-DETECTED CHAPTERS:\n"
        ++ String.intercalate "\n"
            (t.chapters.enum.map fun p =>
              toString (p.1 + 1) ++ ". " ++ p.2.headline ++ " - " ++ p.2.summary)
      else "")
  ++ "\n\nCreate a summary with:\n\n"
  ++ "1. FULL OVERVIEW (200-300 words):\n   - What is this podcast about?\n   - Who is speaking and what's their perspective?\n   - What are the main themes and arguments?\n   - Why should someone listen to this?\n\n"
  ++ "2. KEY BULLET POINTS (5-7 items):\n   - Main topics discussed in order\n   - Important facts or statistics mentioned\n   - Key arguments or positions taken\n   - Notable quotes or moments\n\n"
  ++ "3. ACTIONABLE INSIGHTS (3-5 items):\n   - What can listeners learn or apply?\n   - Key takeaways that provide value\n   - Perspectives that challenge conventional thinking\n   - Practical advice or recommendations\n\n"
  ++ "4. TL;DR (one compelling sentence):\n   - Capture the essence and hook interest\n   - Make someone want to listen\n\n"
  ++ "Be specific, engaging, and valuable. Focus on what makes this podcast unique and worth listening to."

/-- `buildSocialPrompt` (social-posts.ts, lines 48-118): the summary slot is
the first chapter's summary, else the first 500 characters of the transcript
text, else a placeholder (JS `||` chain, so an empty string falls through);
the topics slot lists the headlines of the first 5 chapters. -/
def buildSocialPrompt (t : Transcript) : String :=
  let chapterSummary := match t.chapters.head? with
    | some ch => ch.summary
    | none => ""
  let podcastSummary :=
    if chapterSummary ≠ "" then chapterSummary
    else if jsSubstring t.text 500 ≠ "" then jsSubstring t.text 500
    else "No summary available."
  let topicsList := String.intercalate "\n"
    ((t.chapters.take 5).enum.map fun p => toString (p.1 + 1) ++ ". " ++ p.2.headline)
  let keyTopics := if topicsList ≠ "" then topicsList else "See transcript"
  "Return STRICT JSON ONLY (no explanation, no backticks).\n"
  ++ "The JSON must match this shape:\n\n"
  ++ "\x7b\n  \"twitter\": \"string (<=280 chars)\",\n  \"linkedin\": \"string\",\n  \"instagram\": \"string\",\n  \"tiktok\": \"string\",\n  \"youtube\": \"string\",\n  \"facebook\": \"string\"\n\x7d\n\n"
  ++ "PODCAST SUMMARY:\n" ++ podcastSummary ++ "\n\n"
  ++ "KEY TOPICS DISCUSSED:\n" ++ keyTopics ++ "\n\n"
  ++ "Now generate 6 unique posts optimized for each platform with the following constraints:\n\n"
  ++ "1. TWITTER/X (MAXIMUM 280 characters - STRICT LIMIT):\n   - Start with a hook that stops scrolling\n   - Include the main value proposition or insight\n   - Make it thread-worthy\n   - Conversational, punchy tone\n   - Can include emojis but use sparingly\n   - CRITICAL: Must be 280 characters or less, including spaces and emojis\n\n"
  ++ "2. LINKEDIN (1-2 paragraphs):\n   - Professional, thought-leadership tone\n   - Lead with an insight, question, or stat\n   - Provide business/career value\n   - End with an engagement question or CTA\n   - Avoid excessive emojis\n\n"
  ++ "3. INSTAGRAM (caption):\n   - Engaging storytelling approach\n   - Use emojis strategically (2-4 max)\n   - Build community connection\n   - Include call-to-action\n   - Personal and relatable\n\n"
  ++ "4. TIKTOK (short caption):\n   - Gen Z friendly, energetic tone\n   - Use trending language/slang\n   - Very concise and punchy\n   - Create FOMO or curiosity\n   - Emojis welcome\n\n"
  ++ "5. YOUTUBE (detailed description):\n   - SEO-friendly, keyword-rich\n   - Explain what viewers will learn\n   - Professional but engaging\n   - Include episode highlights\n   - Can be longer (2-3 paragraphs)\n\n"
  ++ "6. FACEBOOK (2-3 paragraphs):\n   - Conversational, relatable tone\n   - Shareable content approach\n   - Community-focused\n   - End with question or discussion prompt\n   - Mix of personal and informative\n\n"
  ++ "Return only JSON, matching the schema exactly."

/-- `buildTitlesPrompt` (src/unnamed/part_003, lines 43-93): the transcript
text is cut to its first 2000 characters; when chapters exist, every chapter
contributes a numbered headline line (no cap on the number of chapter
lines). -/
def buildTitlesPrompt (t : Transcript) : String :=
  "Return STRICT JSON ONLY (no explanation, no backticks).\n"
  ++ "The JSON must match this shape:\n"
  ++ "\x7b\n  \"youtubeShort\": [\"string\",\"string\",\"string\"], // exactly 3, 40-60 chars each\n  \"youtubeLong\": [\"string\",\"string\",\"string\"],  // exactly 3, 70-100 chars each\n  \"podcastTitles\": [\"string\",\"string\",\"string\"], // exactly 3\n  \"seoKeywords\": [\"string\", \"...\"] // 5-10 items\n\x7d\n\n"
  ++ "Create optimized titles for this podcast episode.\n\n"
  ++ "TRANSCRIPT PREVIEW:\n"
  ++ jsSubstring t.text 2000 ++ "...\n\n"
  ++ (if 0 < t.chapters.length then
        "MAIN TOPICS COVERED:\n"
        ++ String.intercalate "\n"
            (t.chapters.enum.map fun p => toString (p.1 + 1) ++ ". " ++ p.2.headline)
      else "")
  ++ "\n\nGenerate 4 types of titles:\n\n"
  ++ "1. YOUTUBE SHORT TITLES (exactly 3):\n   - 40-60 characters each\n   - Hook-focused, curiosity-driven\n   - Clickable but not clickbait\n   - Use power words and numbers when relevant\n\n"
  ++ "2. YOUTUBE LONG TITLES (exactly 3):\n   - 70-100 characters each\n   - Include SEO keywords naturally\n   - Descriptive and informative\n   - Format: \"Main Topic: Subtitle | Context or Value Prop\"\n\n"
  ++ "3. PODCAST EPISODE TITLES (exactly 3):\n   - Creative, memorable titles\n   - Balance intrigue with clarity\n   - Good for RSS feeds and directories\n   - Can use \"Episode #\" format or standalone\n\n"
  ++ "4. SEO KEYWORDS (5-10):\n   - High-traffic search terms\n   - Relevant to podcast content\n   - Mix of broad and niche terms\n   - Focus on what people actually search for\n\n"
  ++ "Make titles compelling, accurate, and optimized for discovery."

/-- Two-digit zero padding of a component below 100. -/
def pad2 (n : Nat) : String := if n < 10 then "0" ++ toString n else toString n

/-- Modelled from the spec: `formatTimestamp` from `@/lib/format` is not in
the provided sources.  Spec section 6 declares timestamps as
`"MM:SS" | "HH:MM:SS"` with the first entry `0:00`, so minutes are not
zero-padded below one hour; the call site passes `padHours: false`, so hours
are not zero-padded either. -/
def formatTimestamp (totalSeconds : Nat) : String :=
  let h := totalSeconds / 3600
  let m := totalSeconds % 3600 / 60
  let s := totalSeconds % 60
  if h = 0 then toString m ++ ":" ++ pad2 s
  else toString h ++ ":" ++ pad2 m ++ ":" ++ pad2 s

/-- One element of `chapterData` in `generateYouTubeTimestamps`: chapter index,
start time converted from milliseconds to whole seconds, and the speech
service's texts. -/
structure ChapterData where
  index : Nat
  timestamp : Nat
  headline : String
  summary : String
  gist : String
deriving DecidableEq

/-- The `chapterData` array of `generateYouTubeTimestamps` (lines 71-83):
chapters capped to the first 100, each paired with its position and its start
time in seconds (`Math.floor(chapter.start / 1000)`). -/
def chapterDataOf (chapters : List Chapter) : List ChapterData :=
  (chapters.take 100).enum.map fun p =>
    ⟨p.1, p.2.start / 1000, p.2.headline, p.2.summary, p.2.gist⟩

/-- The user prompt of the first timestamps completion call
(youtube-timestamps.ts, lines 87-129), built from the capped chapter data. -/
def buildTimestampsPrompt (chapterData : List ChapterData) : String :=
  "You are a YouTube content optimization expert. Create SHORT CHAPTER TITLES for a video.\n\n"
  ++ "CRITICAL INSTRUCTIONS:\n- DO NOT copy the transcript text\n- DO NOT write full sentences\n- Create 3-6 word TITLES only\n- Think of these as chapter headings, not subtitles\n\n"
  ++ "I have " ++ toString chapterData.length
  ++ " chapters with timestamps. For each one, create a SHORT, CATCHY TITLE.\n\n"
  ++ "CHAPTERS:\n"
  ++ String.intercalate "\n\n"
      (chapterData.enum.map fun p =>
        "Chapter " ++ toString p.1 ++ ": [" ++ toString p.2.timestamp ++ "s]\nContext: "
        ++ p.2.headline ++ "\nSummary: " ++ p.2.summary)
  ++ "\n\nYOUR TASK:\nTransform each chapter into a 3-6 word YouTube chapter title.\n\n"
  ++ "EXAMPLES OF GOOD TITLES:\n✓ \"Introduction to N8N Automation\" (5 words, descriptive title)\n✓ \"Setting Up Your Account\" (4 words, action-oriented)\n✓ \"Telegram Bot Creation\" (3 words, clear and concise)\n✓ \"Building Multi-Agent Workflows\" (3 words, technical but clear)\n✓ \"Testing the News Agent\" (4 words, specific feature)\n\n"
  ++ "EXAMPLES OF BAD RESPONSES (DO NOT DO THIS):\n✗ \"Today we are diving into n8n one of the most underrated\" (transcript excerpt)\n✗ \"One click setup with n8n com allows you to get\" (full sentence from transcript)\n✗ \"So we want to give Sarah some instructions so she knows\" (conversational transcript)\n\n"
  ++ "Return ONLY valid JSON in this exact format:\n\x7b\n  \"titles\": [\n    \x7b\"index\": 0, \"title\": \"Introduction to N8N Automation\"\x7d,\n    \x7b\"index\": 1, \"title\": \"Setting Up Your Account\"\x7d,\n    \x7b\"index\": 2, \"title\": \"Building Your First Bot\"\x7d\n  ]\n\x7d\n\n"
  ++ "Remember: Create TITLES, not transcript excerpts!"

/-- The user message of the timestamps repair call (lines 188-191). -/
def tsRepairUserPrompt : String :=
  "Previous output was malformed. Reply with valid JSON only. Use the same chapter order and provide a 'titles' array with objects \x7b index, title \x7d."

/-- The completion endpoint for a timestamps request: call number and the user
prompt of that call, to the call's outcome. -/
abbrev TsOracle := Nat → String → CompResult

/-- JS property access `v.key` on a parsed JSON value: throws a `TypeError` on
`null`, yields the field on an object, and `undefined` (`none`) on any other
value (primitives and arrays have no such property). -/
def jsProp : Json → String → Except Unit (Option Json)
  | .null, _ => .error ()
  | .obj fs, key => .ok (lookupField fs key)
  | _, _ => .ok none

/-- JS `parsed.titles || []`: an absent or falsy titles value is replaced by
the empty array; any truthy value (of any type) is kept as is. -/
def titlesOrEmpty (v : Option Json) : Json :=
  match v with
  | some j => if j.truthy then j else .arr []
  | none => .arr []

/-- The body of one timestamps parse attempt: `JSON.parse(text)` (throws on
non-JSON text) followed by `parsed.titles || []` (throws when `parsed` is
`null`). -/
def tsExtract (p : RawParse) : Except Unit Json :=
  match p with
  | none => .error ()
  | some parsed =>
    match jsProp parsed "titles" with
    | .error e => .error e
    | .ok tv => .ok (titlesOrEmpty tv)

/-- The first-call content defaulting of the timestamps step:
`content || justTitlesEmptyLiteral` — a missing/null/empty content falls back
to the literal text whose parse is the object with an empty titles array. -/
def tsFirstParse (content : Option RawParse) : RawParse :=
  match content with
  | none => some (.obj [("titles", .arr [])])
  | some p => p

/-- How a timestamps request can end without a value. -/
inductive GenError where
  | missingTiming
  | transport
  | typeError
deriving DecidableEq

/-- The `aiTitles` value of `generateYouTubeTimestamps` together with the
number of completion calls: the first call is not inside any `try`, so its
transport failure escapes; a parse failure triggers the one repair call,
whose own failure of any kind is caught and yields the empty array. -/
def tsAiTitles (oracle : TsOracle) (prompt : String) : Except GenError Json × Nat :=
  match oracle 0 prompt with
  | .err => (.error .transport, 1)
  | .ok content =>
    match tsExtract (tsFirstParse content) with
    | .ok v => (.ok v, 1)
    | .error _ =>
      match oracle 1 tsRepairUserPrompt with
      | .err => (.ok (.arr []), 2)
      | .ok rc =>
        match tsExtract (rc.getD none) with
        | .ok v => (.ok v, 2)
        | .error _ => (.ok (.arr []), 2)

/-- One returned timestamp entry.  The description is a JSON value because the
source takes it from the parsed reply without a type check (`aiTitle?.title`);
the headline fallback contributes a string. -/
structure YTEntry where
  timestamp : String
  description : Json

/-- JS `Array.prototype.find` over the decoded entries, in order, with the
predicate `t.index === i`: a `null` element throws a `TypeError` when the
callback reads `t.index`; only an object whose `index` field is exactly the
number `i` matches (strict equality, no coercion); any other element just
fails the predicate (its `index` property is `undefined`). -/
def jsFindByIndex : List Json → Nat → Except Unit (Option Json)
  | [], _ => .ok none
  | x :: xs, i =>
    match x with
    | .null => .error ()
    | .obj fs =>
      match lookupField fs "index" with
      | some (.num n) => if n = Int.ofNat i then .ok (some (.obj fs)) else jsFindByIndex xs i
      | _ => jsFindByIndex xs i
    | _ => jsFindByIndex xs i

/-- `aiTitles.find((t) => t.index === chapter.index)`: a `TypeError` when
`aiTitles` is a truthy non-array value (numbers, strings, booleans and plain
objects have no `find` method). -/
def jsFind (titles : Json) (i : Nat) : Except Unit (Option Json) :=
  match titles with
  | .arr xs => jsFindByIndex xs i
  | _ => .error ()

/-- One slot of the combination step (lines 209-224): look the chapter's index
up in the decoded titles; `aiTitle?.title || chapter.headline` falls back to
the speech service's headline when no entry matched or when the matched
entry's `title` is absent or falsy. -/
def slotDescription (titles : Json) (cd : ChapterData) : Except Unit Json :=
  match jsFind titles cd.index with
  | .error e => .error e
  | .ok none => .ok (.str cd.headline)
  | .ok (some t) =>
    match jsProp t "title" with
    | .error e => .error e
    | .ok tv =>
      .ok (match tv with
        | some j => if j.truthy then j else .str cd.headline
        | none => .str cd.headline)

/-- The `chapterData.map(...)` of lines 209-235 combined with the final
formatting map (lines 232-235): each slot gets its chapter's formatted start
time and its description; the map evaluates left to right and the first
`TypeError` escapes. -/
def tsAssemble (titles : Json) : List ChapterData → Except Unit (List YTEntry)
  | [] => .ok []
  | cd :: rest =>
    match slotDescription titles cd with
    | .error e => .error e
    | .ok d =>
      match tsAssemble titles rest with
      | .error e => .error e
      | .ok es => .ok (⟨formatTimestamp cd.timestamp, d⟩ :: es)

/-- `generateYouTubeTimestamps` (youtube-timestamps.ts): throws the
missing-timing error on an empty chapters list before any completion call;
caps the chapters to 100; obtains `aiTitles` (one call, plus one repair call
when the first parse fails); combines titles with chapter timing, falling
back to the chapter headline per slot.  Returns the outcome paired with the
number of completion calls issued. -/
def generateYouTubeTimestamps (oracle : TsOracle) (t : Transcript) :
    Except GenError (List YTEntry) × Nat :=
  if t.chapters.isEmpty then (.error .missingTiming, 0)
  else
    let cds := chapterDataOf t.chapters
    let prompt := buildTimestampsPrompt cds
    match tsAiTitles oracle prompt with
    | (.error e, n) => (.error e, n)
    | (.ok titles, n) =>
      match tsAssemble titles cds with
      | .error _ => (.error .typeError, n)
      | .ok es => (.ok es, n)

/-- A one-chapter transcript used as concrete input in several theorems. -/
def sampleT : Transcript := ⟨"Hello world, this is a transcript.", [⟨0, "Intro", "sum", "gist"⟩]⟩

/-- An endpoint on which every completion call fails at the transport level. -/
def transportFailOracle : Oracle := fun _ => .err

/-- A timestamps endpoint on which every completion call fails at the
transport level. -/
def tsTransportFailOracle : TsOracle := fun _ _ => .err

/-- An endpoint whose every response carries content that is not valid
JSON. -/
def badJsonOracle : Oracle := fun _ => .ok (some none)

/-- A timestamps endpoint whose every response carries content that is not
valid JSON. -/
def tsBadJsonOracle : TsOracle := fun _ _ => .ok (some none)

/-- Both completion responses are present but fail parsing or schema
validation for the given decoder. -/
def okButInvalid {α : Type} (dec : Json → Option α) (r : CompResult) : Prop :=
  ∃ c, r = .ok c ∧ attemptDecode dec c = none

/-- A transcript with six chapters with distinct headlines. -/
def t6 : Transcript :=
  ⟨"text",
   [⟨0, "h1", "s1", "g1"⟩, ⟨1000, "h2", "s2", "g2"⟩, ⟨2000, "h3", "s3", "g3"⟩,
    ⟨3000, "h4", "s4", "g4"⟩, ⟨4000, "h5", "s5", "g5"⟩, ⟨5000, "h6", "s6", "g6"⟩]⟩

/-- Two transcripts that differ only in their text, used to show that the
summary fallback depends on the transcript. -/
def tAlpha : Transcript := ⟨"Alpha transcript text.", []⟩

/-- See `tAlpha`. -/
def tBeta : Transcript := ⟨"Beta transcript text.", []⟩

/-- A twitter post of 300 characters. -/
def longTwitter : String := String.mk (List.replicate 300 'x')

/-- A parsed social-posts value whose twitter field has 300 characters. -/
def sp300 : SocialPosts := ⟨longTwitter, "a", "b", "c", "d", "e"⟩

/-- The JSON object that decodes to `sp300`. -/
def sp300Json : Json :=
  .obj [("twitter", .str longTwitter), ("linkedin", .str "a"), ("instagram", .str "b"),
        ("tiktok", .str "c"), ("youtube", .str "d"), ("facebook", .str "e")]

/-- An endpoint whose first response parses and validates to `sp300`. -/
def o5 : Oracle := fun n => if n = 0 then .ok (some (some sp300Json)) else .err

/-- The shape "M:SS or H:MM:SS": an unpadded leading component followed by
zero-padded two-digit components below 60 (below 60 minutes there is no hours
component). -/
def validTimestampShape (s : String) : Prop :=
  ∃ mm ss, ss < 60 ∧
    (s = toString mm ++ ":" ++ pad2 ss ∨
     ∃ hh, 0 < hh ∧ mm < 60 ∧ s = toString hh ++ ":" ++ pad2 mm ++ ":" ++ pad2 ss)

/-- A one-chapter transcript whose chapter starts at 5000 ms. -/
def t5s : Transcript := ⟨"x", [⟨5000, "Intro", "s", "g"⟩]⟩

/-- A timestamps endpoint whose first reply parses to an empty titles
array. -/
def emptyTitlesOracle : TsOracle := fun _ _ => .ok (some (some (.obj [("titles", .arr [])])))

/-- A timestamps endpoint whose first reply parses, but its `titles` field is
the number 7 — a truthy non-array value. -/
def numTitlesOracle : TsOracle := fun _ _ => .ok (some (some (.obj [("titles", .num 7)])))

/-- A timestamps endpoint whose reply has an out-of-range index (5) and a
duplicated index (0, twice). -/
def messyOracle : TsOracle := fun _ _ =>
  .ok (some (some (.obj [("titles", .arr
    [.obj [("index", .num 5), ("title", .str "X")],
     .obj [("index", .num 0), ("title", .str "A")],
     .obj [("index", .num 0), ("title", .str "B")]])])))

/-- A transcript with 101 chapters H0 .. H100, one second apart. -/
def wT6 : Transcript :=
  ⟨"x", (List.range 101).map fun k => ⟨k * 1000, "H" ++ toString k, "s", "g"⟩⟩

/-- The reply list of `wOt6`: a single title for chapter 0. -/
def L6 : List Json := [.obj [("index", .num 0), ("title", .str "T0")]]

/-- A timestamps endpoint whose first reply parses to `L6`. -/
def wOt6 : TsOracle := fun _ _ => .ok (some (some (.obj [("titles", .arr L6)])))

/-- The value `generateYouTubeTimestamps wOt6 wT6` returns: chapter 0 carries
the model title, every other slot the original headline. -/
def esW6 : List YTEntry :=
  (chapterDataOf wT6.chapters).map fun cd =>
    ⟨formatTimestamp cd.timestamp,
     if cd.index = 0 then Json.str "T0" else Json.str cd.headline⟩

/-- A two-chapter transcript whose first chapter starts inside the first
second. -/
def wT8 : Transcript := ⟨"x", [⟨500, "Intro", "s", "g"⟩, ⟨65000, "Next", "s", "g"⟩]⟩

/-- The value `generateYouTubeTimestamps emptyTitlesOracle wT8` returns. -/
def esW8 : List YTEntry := [⟨"0:00", .str "Intro"⟩, ⟨"1:05", .str "Next"⟩]

section Lemmas

/-- Lengths add over string append (JS `.length` on a concatenation). -/
theorem jsLength_append (a b : String) : jsLength (a ++ b) = jsLength a + jsLength b := by
  simp [jsLength, String.toList, String.data_append]

/-- The length of the `n`-character prefix. -/
theorem jsLength_jsSubstring (s : String) (n : Nat) :
    jsLength (jsSubstring s n) = min n (jsLength s) := by
  simp [jsLength, jsSubstring, String.toList, List.asString]

/-- Taking a prefix twice is taking it once. -/
theorem jsSubstring_jsSubstring (s : String) (n : Nat) :
    jsSubstring (jsSubstring s n) n = jsSubstring s n := by
  simp [jsSubstring, String.toList, List.asString, List.take_take]

/-- Call-count bound for the summary step. -/
theorem generateSummary_calls_le (o : Oracle) (t : Transcript) :
    (generateSummary o t).2 ≤ 2 := by
  unfold generateSummary
  repeat' split <;> norm_num

/-- Call-count bound for the social-posts step. -/
theorem generateSocialPosts_calls_le (o : Oracle) (t : Transcript) :
    (generateSocialPosts o t).2 ≤ 2 := by
  unfold generateSocialPosts
  repeat' split <;> norm_num

/-- Call-count bound for the titles step. -/
theorem generateTitles_calls_le (o : Oracle) (t : Transcript) :
    (generateTitles o t).2 ≤ 2 := by
  unfold generateTitles
  repeat' split <;> norm_num

/-- Call-count bound for the `aiTitles` phase of the timestamps step. -/
theorem tsAiTitles_calls_le (ot : TsOracle) (p : String) : (tsAiTitles ot p).2 ≤ 2 := by
  unfold tsAiTitles
  repeat' split <;> norm_num

/-- Call-count bound for the timestamps step. -/
theorem generateYouTubeTimestamps_calls_le (ot : TsOracle) (t : Transcript) :
    (generateYouTubeTimestamps ot t).2 ≤ 2 := by
  unfold generateYouTubeTimestamps
  dsimp only
  split
  · norm_num
  · rcases hts : tsAiTitles ot (buildTimestampsPrompt (chapterDataOf t.chapters)) with ⟨r, n⟩
    have h := tsAiTitles_calls_le ot (buildTimestampsPrompt (chapterDataOf t.chapters))
    rw [hts] at h
    cases r with
    | error e => dsimp only; simpa using h
    | ok v =>
      dsimp only
      split <;> simpa using h

/-- With an empty decoded titles array every slot falls back to the chapter
headline. -/
theorem tsAssemble_arrNil (cds : List ChapterData) :
    tsAssemble (.arr []) cds =
      .ok (cds.map fun cd => ⟨formatTimestamp cd.timestamp, .str cd.headline⟩) := by
  induction cds with
  | nil => rfl
  | cons cd rest ih => simp [tsAssemble, slotDescription, jsFind, jsFindByIndex, ih]

/-- The capped chapter data has `min (number of chapters) 100` entries. -/
theorem chapterDataOf_length (l : List Chapter) :
    (chapterDataOf l).length = min l.length 100 := by
  unfold chapterDataOf
  rw [List.length_map, List.enum_length, List.length_take, Nat.min_comm]

/-- Entry `i < 100` of the capped chapter data comes from chapter `i`. -/
theorem chapterDataOf_getElem? (l : List Chapter) (i : Nat) (h : i < 100) :
    (chapterDataOf l)[i]? = l[i]?.map fun ch =>
      (⟨i, ch.start / 1000, ch.headline, ch.summary, ch.gist⟩ : ChapterData) := by
  unfold chapterDataOf
  rw [List.getElem?_map, List.getElem?_enum, List.getElem?_take_of_lt h]
  cases l[i]? <;> rfl

/-- A successful assembly has one entry per chapter-data entry. -/
theorem tsAssemble_ok_length (titles : Json) (cds : List ChapterData) (es : List YTEntry)
    (h : tsAssemble titles cds = .ok es) : es.length = cds.length := by
  induction cds generalizing es with
  | nil => cases h; rfl
  | cons cd rest ih =>
    unfold tsAssemble at h
    cases hsd : slotDescription titles cd with
    | error e => rw [hsd] at h; cases h
    | ok d =>
      rw [hsd] at h
      cases hr : tsAssemble titles rest with
      | error e => rw [hr] at h; cases h
      | ok es' =>
        rw [hr] at h
        cases h
        simp [ih es' hr]

/-- Entry `i` of a successful assembly is chapter-data entry `i`'s formatted
start time with that slot's description. -/
theorem tsAssemble_ok_getElem? (titles : Json) (cds : List ChapterData) (es : List YTEntry)
    (h : tsAssemble titles cds = .ok es) (i : Nat) (cd : ChapterData)
    (hcd : cds[i]? = some cd) :
    ∃ d, slotDescription titles cd = .ok d ∧
      es[i]? = some ⟨formatTimestamp cd.timestamp, d⟩ := by
  induction cds generalizing es i with
  | nil => simp at hcd
  | cons c rest ih =>
    unfold tsAssemble at h
    cases hsd : slotDescription titles c with
    | error e => rw [hsd] at h; cases h
    | ok d =>
      rw [hsd] at h
      cases hr : tsAssemble titles rest with
      | error e => rw [hr] at h; cases h
      | ok es' =>
        rw [hr] at h
        cases h
        cases i with
        | zero =>
          simp only [List.getElem?_cons_zero, Option.some.injEq] at hcd
          subst hcd
          exact ⟨d, hsd, by simp⟩
        | succ j =>
          simp only [List.getElem?_cons_succ] at hcd
          obtain ⟨d', hd', he'⟩ := ih es' hr j hcd
          exact ⟨d', hd', by simpa using he'⟩

/-- Every entry of a successful assembly carries some chapter-data entry's
formatted start time. -/
theorem tsAssemble_mem_timestamp (titles : Json) (cds : List ChapterData) (es : List YTEntry)
    (h : tsAssemble titles cds = .ok es) (e : YTEntry) (he : e ∈ es) :
    ∃ cd, cd ∈ cds ∧ e.timestamp = formatTimestamp cd.timestamp := by
  induction cds generalizing es with
  | nil => cases h; simp at he
  | cons c rest ih =>
    unfold tsAssemble at h
    cases hsd : slotDescription titles c with
    | error e => rw [hsd] at h; cases h
    | ok d =>
      rw [hsd] at h
      cases hr : tsAssemble titles rest with
      | error e => rw [hr] at h; cases h
      | ok es' =>
        rw [hr] at h
        cases h
        cases he with
        | head => exact ⟨c, List.mem_cons_self c rest, rfl⟩
        | tail _ hmem =>
          obtain ⟨cd, hcd, hts⟩ := ih es' hr hmem
          exact ⟨cd, List.mem_cons_of_mem c hcd, hts⟩

/-- Every produced timestamp string has the M:SS or H:MM:SS shape. -/
theorem formatTimestamp_shape (n : Nat) : validTimestampShape (formatTimestamp n) := by
  unfold validTimestampShape formatTimestamp
  by_cases h : n / 3600 = 0
  · exact ⟨n % 3600 / 60, n % 60, Nat.mod_lt n (by norm_num), Or.inl (by rw [if_pos h])⟩
  · refine ⟨n % 3600 / 60, n % 60, Nat.mod_lt n (by norm_num),
      Or.inr ⟨n / 3600, Nat.pos_of_ne_zero h, ?_, by rw [if_neg h]⟩⟩
    have h1 : n % 3600 < 3600 := Nat.mod_lt n (by norm_num)
    exact (Nat.div_lt_iff_lt_mul (by norm_num)).mpr (by omega)

/-- Inversion of a successful timestamps run: the chapters were non-empty,
some titles value was decoded, and the assembly succeeded on the capped
chapter data. -/
theorem generateYouTubeTimestamps_ok_elim (ot : TsOracle) (t : Transcript)
    (es : List YTEntry) (h : (generateYouTubeTimestamps ot t).1 = .ok es) :
    t.chapters ≠ [] ∧ ∃ titles n,
      tsAiTitles ot (buildTimestampsPrompt (chapterDataOf t.chapters)) = (.ok titles, n) ∧
      tsAssemble titles (chapterDataOf t.chapters) = .ok es := by
  unfold generateYouTubeTimestamps at h
  by_cases hemp : t.chapters.isEmpty
  · rw [if_pos hemp] at h; cases h
  · rw [if_neg hemp] at h
    dsimp only at h
    rcases hts : tsAiTitles ot (buildTimestampsPrompt (chapterDataOf t.chapters)) with ⟨r, n⟩
    rw [hts] at h
    cases r with
    | error e => simp at h
    | ok titles =>
      dsimp only at h
      cases ha : tsAssemble titles (chapterDataOf t.chapters) with
      | error e => rw [ha] at h; simp at h
      | ok es' =>
        rw [ha] at h
        dsimp only at h
        cases h
        exact ⟨by simpa [List.isEmpty_iff] using hemp, titles, n, rfl, ha⟩

/-- Truncation of an over-long twitter field: the result and its length. -/
theorem truncateTwitter_of_long (sp : SocialPosts) (h : 280 < jsLength sp.twitter) :
    truncateTwitter sp = { sp with twitter := jsSubstring sp.twitter 277 ++ "..." } ∧
    jsLength (jsSubstring sp.twitter 277 ++ "...") = 280 := by
  constructor
  · unfold truncateTwitter; rw [if_pos h]
  · rw [jsLength_append, jsLength_jsSubstring]
    have hm : min 277 (jsLength sp.twitter) = 277 := by omega
    rw [hm]
    decide

end Lemmas

/-- C1: transport failures are swallowed by the summary, social-posts and
titles steps (outer catch, static fallback), but the first completion call of
the timestamps step is not inside any try, so its transport failure escapes
the generation call — contradicting the claim that a transport-level failure
is never surfaced for any of the four kinds. -/
theorem c1_transport_error_escapes_timestamps :
    (generateSummary transportFailOracle sampleT).1 = summaryTransportFallback ∧
    (generateSocialPosts transportFailOracle sampleT).1 = socialTransportFallback ∧
    (generateTitles transportFailOracle sampleT).1 = titlesTransportFallback ∧
    generateYouTubeTimestamps tsTransportFailOracle sampleT = (.error .transport, 1) :=
  ⟨rfl, rfl, rfl, rfl⟩

/-- C2: the transport-failure fallback of the titles step has one-element
arrays where the declared shape demands exactly 3 elements (and 5-10
seoKeywords), so not every returned value satisfies its kind's shape. -/
theorem c2_titles_transport_fallback_breaks_shape :
    (generateTitles transportFailOracle sampleT).1 = titlesTransportFallback ∧
    titlesTransportFallback.youtubeShort.length = 1 ∧
    titlesTransportFallback.youtubeLong.length = 1 ∧
    titlesTransportFallback.podcastTitles.length = 1 ∧
    titlesTransportFallback.seoKeywords.length = 1 :=
  ⟨rfl, rfl, rfl, rfl, rfl⟩

/-- C3: every generation request issues at most two completion calls, for
every endpoint behaviour, transcript and artifact kind. -/
theorem c3_at_most_two_completion_calls (o : Oracle) (ot : TsOracle) (t : Transcript) :
    (generateSummary o t).2 ≤ 2 ∧ (generateSocialPosts o t).2 ≤ 2 ∧
    (generateTitles o t).2 ≤ 2 ∧ (generateYouTubeTimestamps ot t).2 ≤ 2 :=
  ⟨generateSummary_calls_le o t, generateSocialPosts_calls_le o t,
   generateTitles_calls_le o t, generateYouTubeTimestamps_calls_le ot t⟩

/-- C7: with an empty (or absent, modelled as empty) chapters list the
timestamps step raises the missing-timing error before any completion call is
issued. -/
theorem c7_empty_chapters_fail_fast (ot : TsOracle) (t : Transcript)
    (h : t.chapters = []) :
    generateYouTubeTimestamps ot t = (.error .missingTiming, 0) := by
  unfold generateYouTubeTimestamps
  simp [h]

/-- C4 counterexample: with both responses failing to parse, the summary step
returns a value built from the input transcript, so the claimed fixed,
transcript-independent static fallback does not exist for the summary kind:
two transcripts give two different results on the both-attempts-failed
path. -/
theorem c4_counterexample_summary_fallback_depends_on_transcript :
    (generateSummary badJsonOracle tAlpha).2 = 2 ∧
    (generateSummary badJsonOracle tBeta).2 = 2 ∧
    (generateSummary badJsonOracle tAlpha).1 ≠ (generateSummary badJsonOracle tBeta).1 :=
  ⟨rfl, rfl, by decide⟩

/-- C4 amended: when both the first and the repair response fail parsing or
validation, each kind returns its kind-specific fallback and no exception
escapes; the social-posts and titles fallbacks are static, the summary
fallback is derived from the transcript, and the timestamps step falls back
to the chapters' original headlines per slot. -/
theorem c4_amended_both_attempts_fail_fallbacks
    (oS oP oT : Oracle) (ot : TsOracle) (t : Transcript)
    (hS0 : okButInvalid summarySchemaParse (oS 0))
    (hS1 : okButInvalid summarySchemaParse (oS 1))
    (hP0 : okButInvalid socialPostsSchemaParse (oP 0))
    (hP1 : okButInvalid socialPostsSchemaParse (oP 1))
    (hT0 : okButInvalid titlesSchemaParse (oT 0))
    (hT1 : okButInvalid titlesSchemaParse (oT 1))
    (hts0 : ot 0 (buildTimestampsPrompt (chapterDataOf t.chapters)) = .ok (some none))
    (hts1 : ot 1 tsRepairUserPrompt = .ok (some none))
    (hne : t.chapters ≠ []) :
    (generateSummary oS t).1 = summaryValidationFallback t ∧
    (generateSocialPosts oP t).1 = socialValidationFallback ∧
    (generateTitles oT t).1 = titlesValidationFallback ∧
    (generateYouTubeTimestamps ot t).1 =
      .ok ((chapterDataOf t.chapters).map fun cd =>
        ⟨formatTimestamp cd.timestamp, .str cd.headline⟩) := by
  obtain ⟨cS0, hS0e, hS0d⟩ := hS0
  obtain ⟨cS1, hS1e, hS1d⟩ := hS1
  obtain ⟨cP0, hP0e, hP0d⟩ := hP0
  obtain ⟨cP1, hP1e, hP1d⟩ := hP1
  obtain ⟨cT0, hT0e, hT0d⟩ := hT0
  obtain ⟨cT1, hT1e, hT1d⟩ := hT1
  refine ⟨?_, ?_, ?_, ?_⟩
  · simp [generateSummary, hS0e, hS0d, hS1e, hS1d]
  · simp only [generateSocialPosts, hP0e, hP0d, hP1e, hP1d]
    decide
  · simp [generateTitles, hT0e, hT0d, hT1e, hT1d]
  · unfold generateYouTubeTimestamps
    rw [if_neg (by simpa [List.isEmpty_iff] using hne)]
    dsimp only
    unfold tsAiTitles
    rw [hts0, hts1]
    dsimp only [tsFirstParse, tsExtract, Option.getD]
    rw [tsAssemble_arrNil]

/-- C4 amended witness: a concrete endpoint whose two responses are both
non-JSON text hits the four fallbacks. -/
theorem c4_amended_both_attempts_fail_fallbacks_witness :
    okButInvalid summarySchemaParse (badJsonOracle 0) ∧
    (generateSummary badJsonOracle sampleT).1 = summaryValidationFallback sampleT ∧
    (generateSocialPosts badJsonOracle sampleT).1 = socialValidationFallback ∧
    (generateTitles badJsonOracle sampleT).1 = titlesValidationFallback ∧
    (generateYouTubeTimestamps tsBadJsonOracle sampleT).1 =
      .ok ((chapterDataOf sampleT.chapters).map fun cd =>
        ⟨formatTimestamp cd.timestamp, .str cd.headline⟩) :=
  ⟨⟨some none, rfl, rfl⟩,
   c4_amended_both_attempts_fail_fallbacks badJsonOracle badJsonOracle badJsonOracle
     tsBadJsonOracle sampleT
     ⟨some none, rfl, rfl⟩ ⟨some none, rfl, rfl⟩ ⟨some none, rfl, rfl⟩
     ⟨some none, rfl, rfl⟩ ⟨some none, rfl, rfl⟩ ⟨some none, rfl, rfl⟩
     rfl rfl (by decide)⟩

/-- C5: a parsed social-posts value whose twitter field exceeds 280
characters (from the first response or from the repair response) is repaired
by truncation — the returned twitter field is the 277-character prefix plus
an ellipsis, exactly 280 characters — and, for a valid first response, no
repair call is issued (the over-length field is not a validation failure). -/
theorem c5_twitter_truncated_not_rejected (o : Oracle) (t : Transcript)
    (c0 : Option RawParse) (sp : SocialPosts)
    (h0 : o 0 = .ok c0) :
    (attemptDecode socialPostsSchemaParse c0 = some sp → 280 < jsLength sp.twitter →
      generateSocialPosts o t = ({ sp with twitter := jsSubstring sp.twitter 277 ++ "..." }, 1) ∧
      jsLength (generateSocialPosts o t).1.twitter = 280 ∧
      ∃ p, (generateSocialPosts o t).1.twitter = p ++ "...") ∧
    (∀ c1, attemptDecode socialPostsSchemaParse c0 = none → o 1 = .ok c1 →
      attemptDecode socialPostsSchemaParse c1 = some sp → 280 < jsLength sp.twitter →
      (generateSocialPosts o t).1 = { sp with twitter := jsSubstring sp.twitter 277 ++ "..." } ∧
      jsLength (generateSocialPosts o t).1.twitter = 280 ∧
      ∃ p, (generateSocialPosts o t).1.twitter = p ++ "...") := by
  constructor
  · intro hdec hlong
    obtain ⟨htr, hlen⟩ := truncateTwitter_of_long sp hlong
    have hgen : generateSocialPosts o t =
        ({ sp with twitter := jsSubstring sp.twitter 277 ++ "..." }, 1) := by
      simp [generateSocialPosts, h0, hdec, htr]
    refine ⟨hgen, ?_, ⟨jsSubstring sp.twitter 277, ?_⟩⟩
    · rw [hgen]; exact hlen
    · rw [hgen]
  · intro c1 hdec0 h1 hdec1 hlong
    obtain ⟨htr, hlen⟩ := truncateTwitter_of_long sp hlong
    have hgen : generateSocialPosts o t =
        ({ sp with twitter := jsSubstring sp.twitter 277 ++ "..." }, 2) := by
      simp [generateSocialPosts, h0, hdec0, h1, hdec1, htr]
    refine ⟨by rw [hgen], ?_, ⟨jsSubstring sp.twitter 277, ?_⟩⟩
    · rw [hgen]; exact hlen
    · rw [hgen]

/-- C5 witness: a concrete 300-character twitter field comes back as exactly
280 characters ending in an ellipsis, with a single completion call. -/
theorem c5_twitter_truncated_not_rejected_witness :
    generateSocialPosts o5 sampleT = ({ sp300 with twitter := jsSubstring sp300.twitter 277 ++ "..." }, 1) ∧
    jsLength (generateSocialPosts o5 sampleT).1.twitter = 280 ∧
    ∃ p, (generateSocialPosts o5 sampleT).1.twitter = p ++ "..." := by
  have h300 : jsLength sp300.twitter = 300 := by
    have h : jsLength sp300.twitter = (List.replicate 300 'x').length := rfl
    rw [h, List.length_replicate]
  exact (c5_twitter_truncated_not_rejected o5 sampleT (some (some sp300Json)) sp300 rfl).1
    rfl (by omega)

set_option maxRecDepth 100000 in
/-- C9 counterexample: the summary and titles prompt builders do not cap the
chapter headlines at 5 — a sixth chapter changes both prompts, so "at most
the first 5 chapter headlines" fails for these two builders. -/
theorem c9_counterexample_all_headlines_included :
    buildSummaryPrompt t6 ≠ buildSummaryPrompt { t6 with chapters := t6.chapters.take 5 } ∧
    buildTitlesPrompt t6 ≠ buildTitlesPrompt { t6 with chapters := t6.chapters.take 5 } := by
  decide

/-- C9 amended: each prompt builder truncates the transcript text to a
bounded kind-specific prefix — 3000 characters for the summary, 2000 for the
titles, and only 500 (used as a fallback summary slot) for the social-posts
prompt; the social-posts prompt is the only one that uses at most the first 5
chapter headlines (the summary and titles prompts include every chapter
headline, see the counterexample). -/
theorem c9_amended_prompt_bounds (t : Transcript) :
    buildSummaryPrompt { t with text := jsSubstring t.text 3000 } = buildSummaryPrompt t ∧
    buildTitlesPrompt { t with text := jsSubstring t.text 2000 } = buildTitlesPrompt t ∧
    buildSocialPrompt { t with text := jsSubstring t.text 500, chapters := t.chapters.take 5 }
      = buildSocialPrompt t := by
  refine ⟨?_, ?_, ?_⟩
  · simp [buildSummaryPrompt, jsSubstring_jsSubstring]
  · simp [buildTitlesPrompt, jsSubstring_jsSubstring]
  · have hh : (t.chapters.take 5).head? = t.chapters.head? := by
      cases t.chapters <;> rfl
    simp [buildSocialPrompt, jsSubstring_jsSubstring, hh, List.take_take]

/-- C6: the timestamps step only ever uses the first 100 chapters — dropping
the chapters beyond the 100th changes neither the prompt sent to the endpoint
nor the result — and a capped chapter slot for which the decoded reply
contains no matching title entry gets the chapter's original headline as its
description (a per-slot fallback). -/
theorem c6_chapters_capped_and_slot_fallback (ot : TsOracle) (t : Transcript)
    (hbig : 100 < t.chapters.length) :
    generateYouTubeTimestamps ot { t with chapters := t.chapters.take 100 } =
      generateYouTubeTimestamps ot t ∧
    ∀ (L : List Json) (n : Nat) (es : List YTEntry) (i : Nat), i < 100 →
      tsAiTitles ot (buildTimestampsPrompt (chapterDataOf t.chapters)) = (.ok (.arr L), n) →
      (generateYouTubeTimestamps ot t).1 = .ok es →
      jsFindByIndex L i = .ok none →
      es[i]?.map (fun e => e.description) =
        t.chapters[i]?.map (fun ch => Json.str ch.headline) := by
  have hcd : chapterDataOf (t.chapters.take 100) = chapterDataOf t.chapters := by
    unfold chapterDataOf
    rw [List.take_take]
    norm_num
  constructor
  · unfold generateYouTubeTimestamps
    have hne : ¬t.chapters.isEmpty = true := by
      rw [List.isEmpty_iff]
      intro hh
      rw [hh] at hbig
      simp at hbig
    have hne2 : ¬(t.chapters.take 100).isEmpty = true := by
      have hlt : 0 < (t.chapters.take 100).length := by
        rw [List.length_take]
        omega
      rw [List.isEmpty_iff]
      intro hh
      rw [hh] at hlt
      simp at hlt
    rw [if_neg hne, if_neg hne2]
    dsimp only
    rw [hcd]
  · intro L n es i hi hts hgen hfind
    obtain ⟨hne, titles, n', hts', ha⟩ := generateYouTubeTimestamps_ok_elim ot t es hgen
    rw [hts] at hts'
    injection hts' with hval hn
    injection hval with hval
    subst hval
    have hilen : i < t.chapters.length := by omega
    obtain ⟨ch, hch⟩ : ∃ ch, t.chapters[i]? = some ch :=
      ⟨t.chapters[i], List.getElem?_eq_getElem hilen⟩
    have hcdi : (chapterDataOf t.chapters)[i]? =
        some ⟨i, ch.start / 1000, ch.headline, ch.summary, ch.gist⟩ := by
      rw [chapterDataOf_getElem? _ _ hi, hch]
      rfl
    obtain ⟨d, hd, he⟩ := tsAssemble_ok_getElem? _ _ es ha i _ hcdi
    have hdval : d = .str ch.headline := by
      unfold slotDescription jsFind at hd
      dsimp only at hd
      rw [hfind] at hd
      injection hd with hd
      exact hd.symm
    rw [he, hch, hdval]
    rfl

/-- C6 witness: with 101 chapters and a reply that only names chapter 0,
dropping the 101st chapter changes nothing, and slot 1 (absent from the
reply) comes back with its original headline. -/
theorem c6_chapters_capped_and_slot_fallback_witness :
    100 < wT6.chapters.length ∧
    generateYouTubeTimestamps wOt6 { wT6 with chapters := wT6.chapters.take 100 } =
      generateYouTubeTimestamps wOt6 wT6 ∧
    esW6[1]?.map (fun e => e.description) =
      wT6.chapters[1]?.map (fun ch => Json.str ch.headline) := by
  have hbig : 100 < wT6.chapters.length := by
    simp [wT6]
  have h := c6_chapters_capped_and_slot_fallback wOt6 wT6 hbig
  exact ⟨hbig, h.1, h.2 L6 1 esW6 1 (by norm_num) rfl rfl rfl⟩

/-- C8 counterexample: the first returned timestamp is the first chapter's
start time floored to seconds, not a forced `0:00` — a chapter starting at
5000 ms yields a first entry at `0:05`. -/
theorem c8_counterexample_first_timestamp_not_zero :
    (generateYouTubeTimestamps emptyTitlesOracle t5s).1 = .ok [⟨"0:05", .str "Intro"⟩] ∧
    ("0:05" : String) ≠ "0:00" :=
  ⟨rfl, by decide⟩

/-- C8 amended: every successfully returned timestamps value is an ordered
sequence of at most 100 entries whose timestamp strings have the M:SS or
H:MM:SS shape; the first entry carries the first chapter's start time floored
to seconds, and is `0:00` exactly when that chapter starts within the first
second. -/
theorem c8_amended_result_shape (ot : TsOracle) (t : Transcript) (es : List YTEntry) (n : Nat)
    (h : generateYouTubeTimestamps ot t = (.ok es, n)) :
    es.length ≤ 100 ∧
    (∀ e ∈ es, validTimestampShape e.timestamp) ∧
    ∀ ch, t.chapters.head? = some ch →
      es.head?.map (fun e => e.timestamp) = some (formatTimestamp (ch.start / 1000)) ∧
      (ch.start < 1000 → es.head?.map (fun e => e.timestamp) = some "0:00") := by
  have h1 : (generateYouTubeTimestamps ot t).1 = .ok es := by rw [h]
  obtain ⟨hne, titles, n', hts, ha⟩ := generateYouTubeTimestamps_ok_elim ot t es h1
  have hlen := tsAssemble_ok_length _ _ _ ha
  have hcdlen := chapterDataOf_length t.chapters
  refine ⟨?_, ?_, ?_⟩
  · have := Nat.min_le_right t.chapters.length 100
    omega
  · intro e he
    obtain ⟨cd, _, hts'⟩ := tsAssemble_mem_timestamp titles _ es ha e he
    rw [hts']
    exact formatTimestamp_shape cd.timestamp
  · intro ch hch
    have hch0 : t.chapters[0]? = some ch := by
      rw [← List.head?_eq_getElem?]
      exact hch
    have hcd : (chapterDataOf t.chapters)[0]? =
        some ⟨0, ch.start / 1000, ch.headline, ch.summary, ch.gist⟩ := by
      rw [chapterDataOf_getElem? _ _ (by norm_num), hch0]
      rfl
    obtain ⟨d, hd, he⟩ := tsAssemble_ok_getElem? titles _ es ha 0 _ hcd
    have hhead : es.head? = some ⟨formatTimestamp (ch.start / 1000), d⟩ := by
      rw [List.head?_eq_getElem?]
      exact he
    constructor
    · rw [hhead]
      rfl
    · intro hlt
      have h0 : ch.start / 1000 = 0 := Nat.div_eq_of_lt hlt
      rw [hhead, h0]
      rfl

/-- C8 amended witness: a first chapter at 500 ms gives a first entry at
`0:00`; the second chapter at 65000 ms gives `1:05`; both timestamps have the
declared shape. -/
theorem c8_amended_result_shape_witness :
    generateYouTubeTimestamps emptyTitlesOracle wT8 = (.ok esW8, 1) ∧
    esW8.length ≤ 100 ∧
    (∀ e ∈ esW8, validTimestampShape e.timestamp) ∧
    esW8.head?.map (fun e => e.timestamp) = some "0:00" := by
  have h := c8_amended_result_shape emptyTitlesOracle wT8 esW8 1 rfl
  refine ⟨rfl, h.1, h.2.1, ?_⟩
  exact (h.2.2 ⟨500, "Intro", "s", "g"⟩ rfl).2 (by norm_num)

/-- C10 counterexample: the result is not independent of the reply content —
a parsable reply whose `titles` field is the number 7 (truthy, not an array)
makes `aiTitles.find` throw a `TypeError`, so the one-chapter request returns
no entries at all instead of min(1, 100) = 1 entries. -/
theorem c10_counterexample_typeerror_on_nonarray_titles :
    t5s.chapters.length = 1 ∧
    generateYouTubeTimestamps numTitlesOracle t5s = (.error .typeError, 1) :=
  ⟨rfl, rfl⟩

/-- C10 amended: whenever the timestamps step does return a value, that value
has exactly min(number of chapters, 100) entries, in the original chapter
order, with entry i's timestamp derived from chapter i's start time as
floor(start / 1000) formatted — independent of the decoded reply (which only
influences descriptions). -/
theorem c10_amended_length_order_timing (ot : TsOracle) (t : Transcript)
    (es : List YTEntry) (n : Nat)
    (h : generateYouTubeTimestamps ot t = (.ok es, n)) :
    es.length = min t.chapters.length 100 ∧
    ∀ i, i < 100 →
      es[i]?.map (fun e => e.timestamp) =
        t.chapters[i]?.map (fun ch => formatTimestamp (ch.start / 1000)) := by
  have h1 : (generateYouTubeTimestamps ot t).1 = .ok es := by rw [h]
  obtain ⟨hne, titles, n', hts, ha⟩ := generateYouTubeTimestamps_ok_elim ot t es h1
  have hlen := tsAssemble_ok_length _ _ _ ha
  have hcdlen := chapterDataOf_length t.chapters
  refine ⟨by omega, ?_⟩
  intro i hi
  cases hch : t.chapters[i]? with
  | none =>
    have hge : t.chapters.length ≤ i := by
      by_contra hlt
      push_neg at hlt
      rw [List.getElem?_eq_getElem hlt] at hch
      cases hch
    have hes : es.length ≤ i := by
      have := Nat.min_le_left t.chapters.length 100
      omega
    rw [List.getElem?_eq_none_iff.mpr hes]
    rfl
  | some ch =>
    have hcdi : (chapterDataOf t.chapters)[i]? =
        some ⟨i, ch.start / 1000, ch.headline, ch.summary, ch.gist⟩ := by
      rw [chapterDataOf_getElem? _ _ hi, hch]
      rfl
    obtain ⟨d, hd, he⟩ := tsAssemble_ok_getElem? titles _ es ha i _ hcdi
    rw [he]
    rfl

/-- C10 amended witness: a reply with an out-of-range index (5) and a
duplicated index (0) still yields exactly min(1, 100) = 1 entry with the
chapter's own timing. -/
theorem c10_amended_length_order_timing_witness :
    generateYouTubeTimestamps messyOracle t5s = (.ok [⟨"0:05", Json.str "A"⟩], 1) ∧
    ([⟨"0:05", Json.str "A"⟩] : List YTEntry).length = min t5s.chapters.length 100 := by
  have h := c10_amended_length_order_timing messyOracle t5s [⟨"0:05", Json.str "A"⟩] 1 rfl
  exact ⟨rfl, h.1⟩

/-- C7 witness: the empty-chapters transcript hits the missing-timing error
with zero completion calls. -/
theorem c7_empty_chapters_fail_fast_witness :
    (⟨"t", []⟩ : Transcript).chapters = [] ∧
    generateYouTubeTimestamps tsTransportFailOracle ⟨"t", []⟩ = (.error .missingTiming, 0) :=
  ⟨rfl, c7_empty_chapters_fail_fast tsTransportFailOracle ⟨"t", []⟩ rfl⟩

end Podscrybe
